import Mathlib

/-!
Verification of the Uni-Muay-Thai-GB client core.

This file gives a shallow embedding, in Lean, of the parts of the
repository that its specification makes claims about:

* the in-memory mock medical record store (`src/services/mockData.ts`:
  `MockDataService.getMedicalPass`, `addMedicalEntry`, `setSuspension`,
  together with the seeded module-level maps);
* the Firebase token session manager (`src/services/firebaseAuth.ts`:
  `FirebaseAuthService.signInWithEmailAndPassword`, `getBearerToken`,
  `signOut`);
* the authenticated request gateway and profile update splitter
  (`src/services/api.ts`: `makeAuthenticatedRequest`,
  `ApiService.updateUserProfile`, `formatAddressesForRequest`,
  `formatContactsForRequest`).

Modelling conventions:

* JavaScript `Date.now()` reads are passed in explicitly as `Nat`
  millisecond timestamps.  Each mock-store operation first awaits a
  positive `setTimeout` delay (`CONFIG.MOCK_API_DELAY = 500` ms), so the
  timestamps observed by successive operations of one run are strictly
  increasing; traces carry that environment fact as the `clockValid`
  predicate.
* ISO datetime strings (`new Date(ms).toISOString()`) round-trip through
  `new Date(s).getTime()` back to the same millisecond value, so entry
  creation times are represented directly by their epoch milliseconds.
* Network calls are represented by oracle parameters holding the value
  the awaited call produced (or the exception it threw).
* JavaScript truthiness (`undefined`, `null`, `""` and `0` are falsy)
  is modelled explicitly where the source relies on it.
* `Array.prototype.sort` is stable (ES2019); `List.insertionSort` with a
  non-strict "greater or equal" relation has exactly the same behaviour:
  on ties the earlier element of the input stays first.
-/

namespace MTGB

/-- JS truthiness of an optional string: `undefined`/`null` and `""` are falsy. -/
def strTruthy : Option String → Bool
  | none => false
  | some s => s != ""

/-- JS `a || b` for an optional string `a`: yields `b` when `a` is falsy. -/
def jsOrString (a : Option String) (b : String) : String :=
  match a with
  | none => b
  | some s => if s = "" then b else s

/-- JS truthiness of an optional number: `undefined`/`null` and `0` are falsy. -/
def natFieldTruthy : Option Nat → Bool
  | none => false
  | some n => n != 0

/-- Decimal digit characters of a natural number, most significant first.
Agrees with core `Nat.repr` (proved below); used to reason about the
generated-id strings of the mock store. -/
def natChars (n : Nat) : List Char :=
  if n < 10 then [Nat.digitChar n]
  else natChars (n / 10) ++ [Nat.digitChar (n % 10)]
decreasing_by exact Nat.div_lt_self (by omega) (by omega)

/-- Value of a list of decimal digit characters (inverse of `natChars`). -/
def digitsVal (l : List Char) : Nat :=
  l.foldl (fun acc c => 10 * acc + (c.toNat - 48)) 0

/-! ### Data model (src/types/api.types.ts)

Optional free-text fields that every modelled code path populates are
represented as plain `String`; fields the code genuinely leaves out are
`Option`. -/

/-- `ApiResponse<T>` from api.types.ts. -/
structure ApiResponse (α : Type) where
  success : Bool
  data : Option α := none
  error : Option String := none
deriving Repr

/-- `ProfileResponse` from api.types.ts (fields used by the mock). -/
structure ProfileResponse where
  profileId : String
  memberCode : String
  name : String
  email : String
  emailVerified : Bool
  mobile : String
  mobileVerified : Bool
  scopes : List String
deriving DecidableEq, Repr

/-- `Address` as produced by the code paths modelled here
(`value` plus `isDefault`). -/
structure Address where
  value : String
  isDefault : Bool
deriving DecidableEq, Repr

/-- `EmergencyContact` as produced by the code paths modelled here
(`isPrimary` is set by the seed data but omitted by the request formatter). -/
structure EmergencyContact where
  value : String
  isPrimary : Option Bool := none
deriving DecidableEq, Repr

/-- `PiiResponse` from api.types.ts. -/
structure PiiResponse where
  dateOfBirth : String
  biologicalSex : String
  addresses : List Address
  emergencyContacts : List EmergencyContact
deriving DecidableEq, Repr

/-- `FighterResponse` from api.types.ts. -/
structure FighterResponse where
  status : String
deriving DecidableEq, Repr

/-- `MedicalEntry` from api.types.ts; `createdAt` is an ISO datetime in the
source, represented by its epoch-millisecond value, and `entryType` is one
of the six entry-type strings. -/
structure MedicalEntry where
  id : String
  entryType : String
  notes : String
  medicName : String
  medicId : String
  createdAtMs : Nat
deriving DecidableEq, Repr

/-- `Suspension` from api.types.ts; dates are ISO datetimes in the source,
represented by their epoch-millisecond values. -/
structure Suspension where
  active : Bool
  reason : String
  startDateMs : Nat
  endDateMs : Option Nat := none
  issuedBy : String
  notes : Option String := none
deriving DecidableEq, Repr

/-- `MedicalPassResponse` from api.types.ts. -/
structure MedicalPassResponse where
  profile : ProfileResponse
  pii : PiiResponse
  status : String
  history : List MedicalEntry
  suspension : Option Suspension
deriving DecidableEq, Repr

/-- `AddMedicalEntryRequest` from api.types.ts. -/
structure AddMedicalEntryRequest where
  entryType : String
  notes : String
  medicName : Option String := none
  medicId : Option String := none
deriving DecidableEq, Repr

/-! ### Mock data constants (src/services/mockData.ts) -/

/-- `MOCK_FIGHTER_PROFILE` constant. -/
def MOCK_FIGHTER_PROFILE : ProfileResponse :=
  { profileId := "mock-fighter-123"
    memberCode := "MTG123456"
    name := "Test Fighter"
    email := "fighter@test.com"
    emailVerified := true
    mobile := "+447777777777"
    mobileVerified := true
    scopes := ["personalise:role:athlete"] }

/-- `MOCK_MEDIC_PROFILE` constant. -/
def MOCK_MEDIC_PROFILE : ProfileResponse :=
  { profileId := "mock-medic-456"
    memberCode := "MTG789012"
    name := "Dr. Test Medic"
    email := "medic@test.com"
    emailVerified := true
    mobile := "+447999999999"
    mobileVerified := true
    scopes := ["personalise:role:medic"] }

/-- `MOCK_FIGHTER_DATA` constant. -/
def MOCK_FIGHTER_DATA : FighterResponse := { status := "active" }

/-- `MOCK_FIGHTER_PII` constant. -/
def MOCK_FIGHTER_PII : PiiResponse :=
  { dateOfBirth := "1990-05-15"
    biologicalSex := "male"
    addresses :=
      [{ value := "123 High Street, Apartment 4B, Manchester, Greater Manchester, M1 1AA, United Kingdom"
         isDefault := true }]
    emergencyContacts :=
      [{ value := "Jane Doe (Spouse): +447888888888, jane.doe@email.com"
         isPrimary := some true }] }

/-- The placeholder `PiiResponse` synthesised by `getFighterRecord` for an
unknown profile id. -/
def PLACEHOLDER_PII : PiiResponse :=
  { dateOfBirth := "1995-01-01"
    biologicalSex := "female"
    addresses :=
      [{ value := "100 Demo Street, London, SW1A 1AA, United Kingdom"
         isDefault := true }]
    emergencyContacts :=
      [{ value := "Demo Contact: +441234567890"
         isPrimary := some true }] }

/-! ### Mock medical record store (src/services/mockData.ts) -/

/-- The two module-level in-memory maps, as total functions with the
JavaScript defaults (`getHistory` initialises a missing key to `[]`, a
missing suspension key reads as `undefined`). -/
structure StoreState where
  medicalHistoryByFighter : String → List MedicalEntry
  suspensionByFighter : String → Option Suspension

/-- The seeded module-level state; `t0` is `Date.now()` at module load. -/
def initialStore (t0 : Nat) : StoreState :=
  { medicalHistoryByFighter := fun pid =>
      if pid = "mock-fighter-123" then
        [ { id := "entry-001"
            entryType := "pre_fight_check"
            notes := "Vitals normal. Cleared for competition."
            medicName := "Dr. Test Medic"
            medicId := "mock-medic-456"
            createdAtMs := t0 - 1000 * 60 * 60 * 24 * 30 }
        , { id := "entry-002"
            entryType := "injury_assessment"
            notes := "Right shin bruise, no fracture suspected. Advised icing and light training."
            medicName := "Dr. Test Medic"
            medicId := "mock-medic-456"
            createdAtMs := t0 - 1000 * 60 * 60 * 24 * 14 }
        , { id := "entry-003"
            entryType := "medical_clearance"
            notes := "Follow-up complete. Cleared for full training."
            medicName := "Dr. Test Medic"
            medicId := "mock-medic-456"
            createdAtMs := t0 - 1000 * 60 * 60 * 24 * 7 } ]
      else []
    suspensionByFighter := fun pid =>
      if pid = "mock-fighter-123" then
        some { active := false
               reason := "Previous mild concussion - cleared"
               startDateMs := t0 - 1000 * 60 * 60 * 24 * 21
               endDateMs := some (t0 - 1000 * 60 * 60 * 24 * 7)
               issuedBy := "Dr. Test Medic"
               notes := some "Cleared after follow-up exam." }
      else none }

/-- `MockDataService.getFighterRecord`: pre-defined data for the known mock
fighter, deterministic placeholder data for any other id.
`profileId.slice(-4)` is `String.takeRight profileId 4`. -/
def getFighterRecord (profileId : String) : ProfileResponse × PiiResponse × String :=
  if profileId = MOCK_FIGHTER_PROFILE.profileId then
    (MOCK_FIGHTER_PROFILE, MOCK_FIGHTER_PII, MOCK_FIGHTER_DATA.status)
  else
    ({ MOCK_FIGHTER_PROFILE with
        profileId := profileId
        memberCode := ("MTG-" ++ profileId.takeRight 4).toUpper
        name := "Demo Fighter " ++ profileId.takeRight 4 },
     PLACEHOLDER_PII, MOCK_FIGHTER_DATA.status)

/-- `MockDataService.getHistory`: the subject's list, `[]` when absent. -/
def getHistory (st : StoreState) (profileId : String) : List MedicalEntry :=
  st.medicalHistoryByFighter profileId

/-- The descending-by-`createdAt` relation the sort comparator
`(a, b) => new Date(b.createdAt).getTime() - new Date(a.createdAt).getTime()`
orders by. -/
def entryAtLeast (a b : MedicalEntry) : Prop :=
  b.createdAtMs ≤ a.createdAtMs

instance : DecidableRel entryAtLeast := fun a b =>
  inferInstanceAs (Decidable (b.createdAtMs ≤ a.createdAtMs))

instance : IsTotal MedicalEntry entryAtLeast :=
  ⟨fun a b => Nat.le_total b.createdAtMs a.createdAtMs⟩

instance : IsTrans MedicalEntry entryAtLeast :=
  ⟨fun _ _ _ h1 h2 => Nat.le_trans h2 h1⟩

/-- `[...history].sort(comparator)`: a stable sort, newest first. -/
def sortHistoryDesc (l : List MedicalEntry) : List MedicalEntry :=
  List.insertionSort entryAtLeast l

/-- `MockDataService.getMedicalPass`. -/
def getMedicalPass (st : StoreState) (profileId : String) :
    ApiResponse MedicalPassResponse :=
  let rec3 := getFighterRecord profileId
  let history := getHistory st profileId
  let suspension := st.suspensionByFighter profileId
  { success := true
    data := some
      { profile := rec3.1
        pii := rec3.2.1
        status := rec3.2.2
        history := sortHistoryDesc history
        suspension := suspension } }

/-- The id string ``entry-${history.length + 1}-${Date.now()}``. -/
def genId (k now : Nat) : String :=
  "entry-" ++ Nat.repr k ++ "-" ++ Nat.repr now

/-- The entry literal built by `addMedicalEntry`: generated id, request
fields with JS `||` defaults for the author, `createdAt` stamped with the
current instant. -/
def mkEntry (st : StoreState) (profileId : String)
    (request : AddMedicalEntryRequest) (now : Nat) : MedicalEntry :=
  { id := genId ((getHistory st profileId).length + 1) now
    entryType := request.entryType
    notes := request.notes
    medicName := jsOrString request.medicName "Demo Medic"
    medicId := jsOrString request.medicId MOCK_MEDIC_PROFILE.profileId
    createdAtMs := now }

/-- `MockDataService.addMedicalEntry`; `now` is the `Date.now()` reading of
this call.  Returns the response together with the updated store. -/
def addMedicalEntry (st : StoreState) (profileId : String)
    (request : AddMedicalEntryRequest) (now : Nat) :
    ApiResponse MedicalPassResponse × StoreState :=
  let entry : MedicalEntry := mkEntry st profileId request now
  let st' : StoreState :=
    { st with medicalHistoryByFighter := fun pid =>
        if pid = profileId then getHistory st profileId ++ [entry]
        else st.medicalHistoryByFighter pid }
  (getMedicalPass st' profileId, st')

/-- `MockDataService.upsertSuspension` folded into `setSuspension`. -/
def setSuspension (st : StoreState) (profileId : String)
    (suspension : Option Suspension) :
    ApiResponse MedicalPassResponse × StoreState :=
  let st' : StoreState :=
    { st with suspensionByFighter := fun pid =>
        if pid = profileId then suspension
        else st.suspensionByFighter pid }
  (getMedicalPass st' profileId, st')

/-! ### Traces of mock store operations -/

/-- One call against the mock store.  `addEntry` carries the `Date.now()`
value that call observes. -/
inductive MockOp where
  | addEntry (pid : String) (request : AddMedicalEntryRequest) (now : Nat)
  | setSusp (pid : String) (suspension : Option Suspension)
  | getPass (pid : String)
deriving Repr

/-- State after one operation (reads leave the modelled state unchanged). -/
def applyOp (st : StoreState) : MockOp → StoreState
  | .addEntry pid request now => (addMedicalEntry st pid request now).2
  | .setSusp pid suspension => (setSuspension st pid suspension).2
  | .getPass _ => st

/-- State after a sequence of operations. -/
def runOps (st : StoreState) : List MockOp → StoreState
  | [] => st
  | op :: rest => runOps (applyOp st op) rest

/-- Clock value after an operation (`addEntry` advances it to its reading). -/
def opClock (t : Nat) : MockOp → Nat
  | .addEntry _ _ now => now
  | .setSusp _ _ => t
  | .getPass _ => t

/-- The environment fact that successive `Date.now()` readings of a run are
strictly increasing (each call awaits a positive `setTimeout` first):
every `addEntry` timestamp strictly exceeds the previous clock value. -/
def clockValid : Nat → List MockOp → Bool
  | _, [] => true
  | t, op :: rest =>
    match op with
    | .addEntry _ _ now => decide (t < now) && clockValid now rest
    | .setSusp _ _ => clockValid t rest
    | .getPass _ => clockValid t rest

/-- Clock value after a whole run. -/
def lastClock : Nat → List MockOp → Nat
  | t, [] => t
  | t, op :: rest => lastClock (opClock t op) rest

/-- The subject an operation writes to (`getPass` writes none). -/
def opWrites (pid : String) : MockOp → Bool
  | .addEntry p _ _ => p == pid
  | .setSusp p _ => p == pid
  | .getPass _ => false

/-- Entry-id uniqueness across the whole store: no duplicate id within a
subject's list, and no id shared between two different subjects. -/
def StoreIdsUnique (st : StoreState) : Prop :=
  (∀ p, ((st.medicalHistoryByFighter p).map MedicalEntry.id).Nodup) ∧
  (∀ p q, p ≠ q →
    ∀ e1 ∈ st.medicalHistoryByFighter p, ∀ e2 ∈ st.medicalHistoryByFighter q,
      e1.id ≠ e2.id)

/-- The three seeded entry ids. -/
def seedIds : List String := ["entry-001", "entry-002", "entry-003"]

/-- Shape invariant for stored ids: each is a seed id or a generated id
whose timestamp is at most the current clock value. -/
def IdWellFormed (t : Nat) (e : MedicalEntry) : Prop :=
  e.id ∈ seedIds ∨ ∃ k T, T ≤ t ∧ e.id = genId k T

/-- Full store invariant threaded through a run. -/
def StoreInv (t : Nat) (st : StoreState) : Prop :=
  StoreIdsUnique st ∧
  (∀ p, ∀ e ∈ st.medicalHistoryByFighter p, IdWellFormed t e) ∧
  (∀ p, ∀ e ∈ st.medicalHistoryByFighter p, e.createdAtMs ≤ t)

/-! ### Firebase token session manager (src/services/firebaseAuth.ts) -/

/-- The three private fields of `FirebaseAuthService`. -/
structure AuthSession where
  accessToken : Option String
  refreshToken : Option String
  tokenExpiresAt : Option Nat
deriving DecidableEq, Repr

/-- The state `signOut()` leaves behind (also the initial state). -/
def emptySession : AuthSession :=
  { accessToken := none, refreshToken := none, tokenExpiresAt := none }

/-- `FirebaseSignInResponse` fields used by the service. -/
structure FirebaseSignInResponse where
  idToken : String
  refreshToken : String
  localId : String
  email : String
deriving DecidableEq, Repr

/-- `FirebaseTokenExchangeResponse`; `expires_in` is a decimal-string
number of seconds on the wire, modelled by its `parseInt` value. -/
structure FirebaseTokenExchangeResponse where
  access_token : String
  expires_in : Nat
  refresh_token : String
  id_token : String
deriving DecidableEq, Repr

/-- The success payload of `signInWithEmailAndPassword`. -/
structure SignInSuccess where
  token : String
  uid : String
  email : String
deriving DecidableEq, Repr

/-- `FirebaseAuthService.signInWithEmailAndPassword`.  The two network
calls are oracle parameters: `signInResult` is what `firebaseSignIn`
returned and `exchangeResult` what `exchangeRefreshToken` returned;
`now` is `Date.now()` when the tokens are stored. -/
def signInWithEmailAndPassword (s : AuthSession)
    (signInResult : ApiResponse FirebaseSignInResponse)
    (exchangeResult : ApiResponse FirebaseTokenExchangeResponse)
    (now : Nat) : ApiResponse SignInSuccess × AuthSession :=
  match signInResult.success, signInResult.data with
  | true, some si =>
    match exchangeResult.success, exchangeResult.data with
    | true, some tok =>
      let s' : AuthSession :=
        { accessToken := some tok.access_token
          refreshToken := some si.refreshToken
          tokenExpiresAt := some (now + tok.expires_in * 1000) }
      ({ success := true
         data := some { token := tok.access_token, uid := si.localId, email := si.email } },
       s')
    | _, _ =>
      ({ success := false
         error := some (jsOrString exchangeResult.error "Failed to exchange tokens") }, s)
  | _, _ =>
    ({ success := false
       error := some (jsOrString signInResult.error "Firebase sign in failed") }, s)

/-- `FirebaseAuthService.getBearerToken`.  `now` is the `Date.now()`
reading of the expiry check, `exchangeResult` the oracle for the refresh
exchange (consulted only when the refresh branch runs), `now2` the
`Date.now()` reading after a successful exchange.  Returns the token (or
`null`), the post-call session, and how many refresh exchanges were
issued.  The expiry comparison is done in `Int` because the JavaScript
subtraction can go negative. -/
def getBearerToken (s : AuthSession) (now : Nat)
    (exchangeResult : ApiResponse FirebaseTokenExchangeResponse)
    (now2 : Nat) : Option String × AuthSession × Nat :=
  if !strTruthy s.accessToken || !strTruthy s.refreshToken then
    (none, s, 0)
  else if natFieldTruthy s.tokenExpiresAt
      && decide ((now : Int) > (s.tokenExpiresAt.getD 0 : Int) - 300000) then
    match exchangeResult.success, exchangeResult.data with
    | true, some tok =>
      let s' : AuthSession :=
        { s with
          accessToken := some tok.access_token
          tokenExpiresAt := some (now2 + tok.expires_in * 1000) }
      (some tok.access_token, s', 1)
    | _, _ => (none, emptySession, 1)
  else (s.accessToken, s, 0)

/-! ### Authenticated request gateway (src/services/api.ts) -/

/-- A parsed JSON body viewed simultaneously as the typed payload (used on
the OK path) and as a structured-error carrier (used on the non-OK path). -/
structure JsonBody (α : Type) where
  data : α
  message : Option String := none
  errorField : Option String := none

/-- Outcome of `await response.json()`. -/
inductive JsonOutcome (α : Type) where
  | throwEx (message : Option String)
  | val (body : JsonBody α)

/-- Outcome of `await fetch(...)` (and the subsequent body read). -/
inductive FetchOutcome (α : Type) where
  | throwEx (message : Option String)
  | resp (ok : Bool) (status : Nat) (statusText : String) (body : JsonOutcome α)

/-- `makeAuthenticatedRequest`.  `bearerToken` is what
`firebaseAuthService.getBearerToken()` returned; `outcome` is the oracle
for the HTTP exchange.  Returns the tagged result together with whether
the HTTP request was issued at all. -/
def makeAuthenticatedRequest {α : Type} (bearerToken : Option String)
    (outcome : FetchOutcome α) : ApiResponse α × Bool :=
  if !strTruthy bearerToken then
    ({ success := false
       error := some "No authentication token available. Please log in." }, false)
  else
    match outcome with
    | .throwEx m =>
      ({ success := false, error := some (jsOrString m "Network request failed") }, true)
    | .resp ok status statusText body =>
      if ok then
        match body with
        | .throwEx m =>
          ({ success := false, error := some (jsOrString m "Network request failed") }, true)
        | .val b => ({ success := true, data := some b.data }, true)
      else
        let defaultMsg := "HTTP " ++ Nat.repr status ++ ": " ++ statusText
        match body with
        | .throwEx _ => ({ success := false, error := some defaultMsg }, true)
        | .val b =>
          ({ success := false
             error := some (jsOrString b.message (jsOrString b.errorField defaultMsg)) }, true)

/-! ### Profile update splitter (src/services/api.ts) -/

/-- The fields of `Partial<UserProfile>` that `updateUserProfile` reads. -/
structure UserProfileUpdates where
  name : Option String := none
  email : Option String := none
  mobile : Option String := none
  dateOfBirth : Option String := none
  biologicalSex : Option String := none
  addresses : Option (List String) := none
  emergencyContacts : Option (List String) := none
deriving DecidableEq, Repr

/-- `UpdateProfileRequest` body; `none` means the key is absent. -/
structure UpdateProfileRequest where
  name : String
  email : Option String := none
  mobile : Option String := none
deriving DecidableEq, Repr

/-- `UpdatePiiRequest` body; `none` means the key is absent. -/
structure UpdatePiiRequest where
  dateOfBirth : Option String := none
  biologicalSex : Option String := none
  addresses : Option (List Address) := none
  emergencyContacts : Option (List EmergencyContact) := none
deriving DecidableEq, Repr

/-- `formatAddressesForRequest`: `undefined` stays `undefined`, the empty
list stays empty, otherwise each string is wrapped and the first entry is
marked default. -/
def formatAddressesForRequest : Option (List String) → Option (List Address)
  | none => none
  | some [] => some []
  | some addrs => some (addrs.mapIdx fun i a => { value := a, isDefault := i == 0 })

/-- `formatContactsForRequest`: `undefined` stays `undefined`, the empty
list stays empty, otherwise each string is wrapped. -/
def formatContactsForRequest : Option (List String) → Option (List EmergencyContact)
  | none => none
  | some [] => some []
  | some cs => some (cs.map fun c => { value := c })

/-- The `profileRequest` object literal built by `updateUserProfile`. -/
def buildProfileRequest (updates : UserProfileUpdates) : UpdateProfileRequest :=
  { name := jsOrString updates.name ""
    email := if strTruthy updates.email then updates.email else none
    mobile := if strTruthy updates.mobile then updates.mobile else none }

/-- The `piiRequest` object literal built by `updateUserProfile`:
spread-included fields appear exactly when their guard is truthy
(for the two formatted lists: when the formatter did not return
`undefined`). -/
def buildPiiRequest (updates : UserProfileUpdates) : UpdatePiiRequest :=
  { dateOfBirth := if strTruthy updates.dateOfBirth then updates.dateOfBirth else none
    biologicalSex := if strTruthy updates.biologicalSex then updates.biologicalSex else none
    addresses := formatAddressesForRequest updates.addresses
    emergencyContacts := formatContactsForRequest updates.emergencyContacts }

/-- Which sub-requests a run of `updateUserProfile` issued, and with what
bodies. -/
structure UpdateTrace where
  profileRequestSent : Option UpdateProfileRequest
  piiRequestSent : Option UpdatePiiRequest
deriving DecidableEq, Repr

/-- Whether the basic-info block of `updateUserProfile` runs:
`updates.name || updates.email || updates.mobile`. -/
def basicWanted (updates : UserProfileUpdates) : Bool :=
  strTruthy updates.name || strTruthy updates.email || strTruthy updates.mobile

/-- Whether the personal-info block runs:
`updates.dateOfBirth || updates.biologicalSex || updates.addresses ||
updates.emergencyContacts` (an array, even empty, is truthy in JS). -/
def piiWanted (updates : UserProfileUpdates) : Bool :=
  strTruthy updates.dateOfBirth || strTruthy updates.biologicalSex
    || updates.addresses.isSome || updates.emergencyContacts.isSome

/-- The personal-info block of `updateUserProfile` (run after the
basic-info block did not fail).  `piiResp` is the oracle for the PII PUT,
`finalResp` for the closing `getUserProfile()` call. -/
def updatePiiStep {Profile : Type} (updates : UserProfileUpdates)
    (piiResp : ApiResponse PiiResponse) (finalResp : ApiResponse Profile)
    (profSent : Option UpdateProfileRequest) : ApiResponse Profile × UpdateTrace :=
  if piiWanted updates then
    if !piiResp.success then
      ({ success := false
         error := some (jsOrString piiResp.error "Failed to update personal information") },
       { profileRequestSent := profSent, piiRequestSent := some (buildPiiRequest updates) })
    else
      (finalResp,
       { profileRequestSent := profSent, piiRequestSent := some (buildPiiRequest updates) })
  else
    (finalResp, { profileRequestSent := profSent, piiRequestSent := none })

/-- `ApiService.updateUserProfile`.  `profileResp` is the oracle for the
basic-info PUT; on its failure the function returns at once and the
personal-info PUT is never issued. -/
def updateUserProfile {Profile : Type} (updates : UserProfileUpdates)
    (profileResp : ApiResponse ProfileResponse)
    (piiResp : ApiResponse PiiResponse)
    (finalResp : ApiResponse Profile) : ApiResponse Profile × UpdateTrace :=
  if basicWanted updates then
    if !profileResp.success then
      ({ success := false
         error := some (jsOrString profileResp.error "Failed to update profile") },
       { profileRequestSent := some (buildProfileRequest updates), piiRequestSent := none })
    else
      updatePiiStep updates piiResp finalResp (some (buildProfileRequest updates))
  else
    updatePiiStep updates piiResp finalResp none

/-! ## Theorems

### Decimal representation of generated entry ids -/

theorem natChars_eq_of_lt {n : Nat} (h : n < 10) : natChars n = [Nat.digitChar n] := by
  rw [natChars]
  simp [h]

theorem natChars_eq_of_ge {n : Nat} (h : 10 ≤ n) :
    natChars n = natChars (n / 10) ++ [Nat.digitChar (n % 10)] := by
  rw [natChars]
  simp [Nat.not_lt.mpr h]

theorem toDigitsCore_eq_natChars :
    ∀ (fuel n : Nat) (ds : List Char), n < fuel →
      Nat.toDigitsCore 10 fuel n ds = natChars n ++ ds := by
  intro fuel
  induction fuel with
  | zero => intro n ds h; omega
  | succ f ih =>
    intro n ds h
    by_cases h10 : n < 10
    · have hdiv : n / 10 = 0 := Nat.div_eq_of_lt h10
      rw [Nat.toDigitsCore]
      simp [hdiv, natChars_eq_of_lt h10, Nat.mod_eq_of_lt h10]
    · have hge : 10 ≤ n := Nat.not_lt.mp h10
      have hdiv : n / 10 ≠ 0 := by
        have : 1 ≤ n / 10 := (Nat.one_le_div_iff (by omega)).mpr hge
        omega
      have hstep : n / 10 < f := by
        have h1 : n / 10 < n := Nat.div_lt_self (by omega) (by omega)
        omega
      rw [Nat.toDigitsCore]
      simp only [hdiv, if_false]
      rw [ih (n / 10) _ hstep, natChars_eq_of_ge hge, List.append_assoc]
      rfl

theorem repr_data (n : Nat) : (Nat.repr n).data = natChars n := by
  show (Nat.toDigits 10 n).asString.data = natChars n
  rw [Nat.toDigits, toDigitsCore_eq_natChars (n + 1) n [] (Nat.lt_succ_self n)]
  simp [List.asString]

theorem digitChar_toNat {d : Nat} (h : d < 10) : (Nat.digitChar d).toNat = 48 + d := by
  interval_cases d <;> rfl

theorem natChars_toNat_bound (n : Nat) :
    ∀ c ∈ natChars n, 48 ≤ c.toNat ∧ c.toNat ≤ 57 := by
  induction n using Nat.strong_induction_on with
  | _ n ih =>
    by_cases h : n < 10
    · rw [natChars_eq_of_lt h]
      intro c hc
      simp only [List.mem_singleton] at hc
      subst hc
      rw [digitChar_toNat h]
      omega
    · rw [natChars_eq_of_ge (Nat.not_lt.mp h)]
      intro c hc
      rcases List.mem_append.mp hc with h1 | h2
      · exact ih (n / 10) (Nat.div_lt_self (by omega) (by omega)) c h1
      · simp only [List.mem_singleton] at h2
        subst h2
        rw [digitChar_toNat (Nat.mod_lt _ (by omega))]
        have := Nat.mod_lt n (show 0 < 10 by omega)
        omega

theorem natChars_ne_dash {n : Nat} {c : Char} (hc : c ∈ natChars n) : c ≠ '-' := by
  intro h
  subst h
  have hb := natChars_toNat_bound n _ hc
  have h45 : ('-').toNat = 45 := rfl
  omega

theorem foldl_digits_natChars (n : Nat) :
    ∀ acc : Nat, (natChars n).foldl (fun a c => 10 * a + (c.toNat - 48)) acc
      = acc * 10 ^ (natChars n).length + n := by
  induction n using Nat.strong_induction_on with
  | _ n ih =>
    intro acc
    by_cases h : n < 10
    · rw [natChars_eq_of_lt h]
      simp only [List.foldl, List.length_singleton, pow_one]
      rw [digitChar_toNat h]
      omega
    · have hge := Nat.not_lt.mp h
      rw [natChars_eq_of_ge hge]
      rw [List.foldl_append]
      rw [ih (n / 10) (Nat.div_lt_self (by omega) (by omega)) acc]
      simp only [List.foldl, List.length_append, List.length_singleton]
      rw [digitChar_toNat (Nat.mod_lt _ (by omega)), Nat.pow_succ]
      have key : 10 * (n / 10) + n % 10 = n := Nat.div_add_mod n 10
      have hY : acc * (10 ^ (natChars (n / 10)).length * 10)
          = acc * 10 ^ (natChars (n / 10)).length * 10 := by ring
      rw [hY]
      omega

theorem natChars_inj {a b : Nat} (h : natChars a = natChars b) : a = b := by
  have hv := congrArg digitsVal h
  simp only [digitsVal] at hv
  rw [foldl_digits_natChars a 0, foldl_digits_natChars b 0] at hv
  omega

theorem append_dash_inj :
    ∀ (A C B D : List Char), (∀ c ∈ A, c ≠ '-') → (∀ c ∈ C, c ≠ '-') →
      A ++ '-' :: B = C ++ '-' :: D → A = C ∧ B = D := by
  intro A
  induction A with
  | nil =>
    intro C B D _ hC h
    cases C with
    | nil => simpa using h
    | cons c cs =>
      simp only [List.nil_append, List.cons_append, List.cons.injEq] at h
      exact absurd h.1.symm (hC c (by simp))
  | cons a as ih =>
    intro C B D hA hC h
    cases C with
    | nil =>
      simp only [List.cons_append, List.nil_append, List.cons.injEq] at h
      exact absurd h.1 (hA a (by simp))
    | cons c cs =>
      simp only [List.cons_append, List.cons.injEq] at h
      obtain ⟨hac, hrest⟩ := h
      obtain ⟨h1, h2⟩ := ih cs B D (fun x hx => hA x (by simp [hx]))
        (fun x hx => hC x (by simp [hx])) hrest
      exact ⟨by rw [hac, h1], h2⟩

theorem genId_data (k T : Nat) :
    (genId k T).data
      = 'e' :: 'n' :: 't' :: 'r' :: 'y' :: '-' :: (natChars k ++ '-' :: natChars T) := by
  have h1 : ("entry-" : String).data = ['e', 'n', 't', 'r', 'y', '-'] := rfl
  have h2 : ("-" : String).data = ['-'] := rfl
  simp [genId, String.data_append, repr_data, h1, h2]

theorem genId_inj {k1 T1 k2 T2 : Nat} (h : genId k1 T1 = genId k2 T2) :
    k1 = k2 ∧ T1 = T2 := by
  have hd := congrArg String.data h
  rw [genId_data, genId_data] at hd
  simp only [List.cons.injEq, true_and] at hd
  obtain ⟨hk, hT⟩ := append_dash_inj _ _ _ _
    (fun c hc => natChars_ne_dash hc) (fun c hc => natChars_ne_dash hc) hd
  exact ⟨natChars_inj hk, natChars_inj hT⟩

theorem genId_ne_seed {k T : Nat} {s : String} (hs : s ∈ seedIds) : genId k T ≠ s := by
  intro h
  have hd := congrArg String.data h
  rw [genId_data] at hd
  have hmem : '-' ∈ natChars k ++ '-' :: natChars T := by simp
  fin_cases hs <;>
    · simp only [List.cons.injEq, true_and, show ("entry-001" : String).data
        = ['e', 'n', 't', 'r', 'y', '-', '0', '0', '1'] from rfl,
        show ("entry-002" : String).data
        = ['e', 'n', 't', 'r', 'y', '-', '0', '0', '2'] from rfl,
        show ("entry-003" : String).data
        = ['e', 'n', 't', 'r', 'y', '-', '0', '0', '3'] from rfl] at hd
      rw [hd] at hmem
      simp at hmem

/-! ### The history sort -/

theorem sortHistoryDesc_perm (l : List MedicalEntry) :
    List.Perm (sortHistoryDesc l) l :=
  List.perm_insertionSort entryAtLeast l

theorem sortHistoryDesc_sorted (l : List MedicalEntry) :
    List.Sorted entryAtLeast (sortHistoryDesc l) :=
  List.sorted_insertionSort entryAtLeast l

theorem sortHistoryDesc_head_of_max {l : List MedicalEntry} {e : MedicalEntry}
    (hmax : ∀ x ∈ l, x.createdAtMs < e.createdAtMs) :
    (sortHistoryDesc (l ++ [e])).head? = some e := by
  have hperm := sortHistoryDesc_perm (l ++ [e])
  have hsorted := sortHistoryDesc_sorted (l ++ [e])
  have he : e ∈ sortHistoryDesc (l ++ [e]) := hperm.mem_iff.mpr (by simp)
  cases hl : sortHistoryDesc (l ++ [e]) with
  | nil => rw [hl] at he; simp at he
  | cons y ys =>
    rw [hl] at he hsorted hperm
    have hy_mem : y ∈ l ++ [e] := hperm.mem_iff.mp (by simp)
    simp only [List.head?_cons, Option.some.injEq]
    rcases List.mem_cons.mp he with heq | hetail
    · exact heq.symm
    · have hrel : entryAtLeast y e := List.rel_of_sorted_cons hsorted e hetail
      unfold entryAtLeast at hrel
      rcases List.mem_append.mp hy_mem with hyl | hye
      · have := hmax y hyl
        omega
      · simp only [List.mem_singleton] at hye
        exact hye

/-! ### Store invariants along a run -/

theorem fresh_id_ne {t now k : Nat} {e : MedicalEntry}
    (hwf : IdWellFormed t e) (hlt : t < now) : e.id ≠ genId k now := by
  rcases hwf with hseed | ⟨k', T, hT, hgen⟩
  · intro h
    exact genId_ne_seed hseed h.symm
  · intro h
    rw [hgen] at h
    obtain ⟨-, hTeq⟩ := genId_inj h
    omega

theorem mem_add_history {st : StoreState} {pid p : String}
    {req : AddMedicalEntryRequest} {now : Nat} {e : MedicalEntry} :
    e ∈ (addMedicalEntry st pid req now).2.medicalHistoryByFighter p ↔
      e ∈ st.medicalHistoryByFighter p ∨ (p = pid ∧ e = mkEntry st pid req now) := by
  simp only [addMedicalEntry, getHistory]
  by_cases hp : p = pid
  · subst hp
    simp
  · simp [hp]

theorem storeInv_mono {t t' : Nat} {st : StoreState} (h : t ≤ t')
    (hinv : StoreInv t st) : StoreInv t' st := by
  obtain ⟨hu, hwf, htime⟩ := hinv
  refine ⟨hu, ?_, ?_⟩
  · intro p e he
    rcases hwf p e he with hseed | ⟨k, T, hT, hg⟩
    · exact Or.inl hseed
    · exact Or.inr ⟨k, T, le_trans hT h, hg⟩
  · intro p e he
    exact le_trans (htime p e he) h

theorem storeInv_setSuspension {t : Nat} {st : StoreState} (pid : String)
    (s : Option Suspension) (hinv : StoreInv t st) :
    StoreInv t (setSuspension st pid s).2 :=
  hinv

theorem storeInv_addMedicalEntry {t now : Nat} {st : StoreState} (pid : String)
    (req : AddMedicalEntryRequest) (hinv : StoreInv t st) (hlt : t < now) :
    StoreInv now (addMedicalEntry st pid req now).2 := by
  obtain ⟨⟨hu1, hu2⟩, hwf, htime⟩ := hinv
  have hfresh : ∀ p, ∀ e ∈ st.medicalHistoryByFighter p,
      e.id ≠ (mkEntry st pid req now).id :=
    fun p e he => fresh_id_ne (hwf p e he) hlt
  refine ⟨⟨?_, ?_⟩, ?_, ?_⟩
  · intro p
    by_cases hp : p = pid
    · subst hp
      have hhist : (addMedicalEntry st p req now).2.medicalHistoryByFighter p
          = st.medicalHistoryByFighter p ++ [mkEntry st p req now] := by
        simp [addMedicalEntry, getHistory]
      rw [hhist, List.map_append, List.map_cons, List.map_nil, List.nodup_append]
      refine ⟨hu1 p, List.nodup_singleton _, ?_⟩
      intro x hx hx2
      simp only [List.mem_singleton] at hx2
      obtain ⟨e, he, hex⟩ := List.mem_map.mp hx
      exact hfresh p e he (by rw [hex, hx2])
    · have hhist : (addMedicalEntry st pid req now).2.medicalHistoryByFighter p
          = st.medicalHistoryByFighter p := by
        simp [addMedicalEntry, getHistory, hp]
      rw [hhist]
      exact hu1 p
  · intro p q hpq e1 he1 e2 he2
    rcases mem_add_history.mp he1 with h1 | ⟨hp, h1⟩
    · rcases mem_add_history.mp he2 with h2 | ⟨hq, h2⟩
      · exact hu2 p q hpq e1 h1 e2 h2
      · rw [h2]
        exact hfresh p e1 h1
    · rcases mem_add_history.mp he2 with h2 | ⟨hq, h2⟩
      · rw [h1]
        intro hcontra
        exact hfresh q e2 h2 hcontra.symm
      · exact absurd (hp.trans hq.symm) hpq
  · intro p e he
    rcases mem_add_history.mp he with h1 | ⟨hp, h1⟩
    · rcases hwf p e h1 with hseed | ⟨k, T, hT, hg⟩
      · exact Or.inl hseed
      · exact Or.inr ⟨k, T, le_trans hT (le_of_lt hlt), hg⟩
    · exact Or.inr ⟨(getHistory st pid).length + 1, now, le_refl now, by rw [h1]; rfl⟩
  · intro p e he
    rcases mem_add_history.mp he with h1 | ⟨hp, h1⟩
    · exact le_trans (htime p e h1) (le_of_lt hlt)
    · rw [h1]
      exact Nat.le_refl now

theorem storeInv_runOps :
    ∀ (ops : List MockOp) (t : Nat) (st : StoreState), StoreInv t st →
      clockValid t ops = true →
      StoreInv (lastClock t ops) (runOps st ops) ∧ t ≤ lastClock t ops := by
  intro ops
  induction ops with
  | nil =>
    intro t st hinv _
    exact ⟨hinv, le_refl t⟩
  | cons op rest ih =>
    intro t st hinv hvalid
    cases op with
    | addEntry pid req now =>
      simp only [clockValid, Bool.and_eq_true, decide_eq_true_eq] at hvalid
      obtain ⟨hlt, hrest⟩ := hvalid
      have hstep := storeInv_addMedicalEntry pid req hinv hlt
      have hrun := ih now _ hstep hrest
      simp only [runOps, applyOp, lastClock, opClock]
      exact ⟨hrun.1, le_trans (le_of_lt hlt) hrun.2⟩
    | setSusp pid s =>
      simp only [clockValid] at hvalid
      have hstep := storeInv_setSuspension pid s hinv
      have hrun := ih t _ hstep hvalid
      simp only [runOps, applyOp, lastClock, opClock]
      exact hrun
    | getPass pid =>
      simp only [clockValid] at hvalid
      have hrun := ih t _ hinv hvalid
      simp only [runOps, applyOp, lastClock, opClock]
      exact hrun

theorem storeInv_initial (t0 : Nat) : StoreInv t0 (initialStore t0) := by
  refine ⟨⟨?_, ?_⟩, ?_, ?_⟩
  · intro p
    by_cases hp : p = "mock-fighter-123"
    · simp only [initialStore, if_pos hp, List.map_cons, List.map_nil]
      decide
    · simp [initialStore, hp]
  · intro p q hpq e1 he1 e2 he2
    by_cases hp : p = "mock-fighter-123"
    · have hq : q ≠ "mock-fighter-123" := fun h => hpq (hp.trans h.symm)
      simp [initialStore, hq] at he2
    · simp [initialStore, hp] at he1
  · intro p e he
    by_cases hp : p = "mock-fighter-123"
    · simp only [initialStore, if_pos hp, List.mem_cons, List.not_mem_nil,
        or_false] at he
      rcases he with h | h | h
      · exact Or.inl (by rw [h]; show "entry-001" ∈ seedIds; decide)
      · exact Or.inl (by rw [h]; show "entry-002" ∈ seedIds; decide)
      · exact Or.inl (by rw [h]; show "entry-003" ∈ seedIds; decide)
    · simp [initialStore, hp] at he
  · intro p e he
    by_cases hp : p = "mock-fighter-123"
    · simp only [initialStore, if_pos hp, List.mem_cons, List.not_mem_nil,
        or_false] at he
      rcases he with h | h | h
      · rw [h]; exact Nat.sub_le _ _
      · rw [h]; exact Nat.sub_le _ _
      · rw [h]; exact Nat.sub_le _ _
    · simp [initialStore, hp] at he

theorem runOps_append (st : StoreState) (l1 l2 : List MockOp) :
    runOps st (l1 ++ l2) = runOps (runOps st l1) l2 := by
  induction l1 generalizing st with
  | nil => rfl
  | cons op rest ih => simp [runOps, ih]

theorem runOps_no_write :
    ∀ (ops : List MockOp) (st : StoreState) (pid : String),
      (∀ op ∈ ops, opWrites pid op = false) →
      (runOps st ops).medicalHistoryByFighter pid = st.medicalHistoryByFighter pid ∧
      (runOps st ops).suspensionByFighter pid = st.suspensionByFighter pid := by
  intro ops
  induction ops with
  | nil =>
    intro st pid _
    exact ⟨rfl, rfl⟩
  | cons op rest ih =>
    intro st pid hw
    have hop := hw op (by simp)
    have hrest := ih (applyOp st op) pid (fun o ho => hw o (by simp [ho]))
    cases op with
    | addEntry p req now =>
      have hne : ¬pid = p := by
        simp only [opWrites, beq_eq_false_iff_ne, ne_eq] at hop
        exact fun h => hop h.symm
      have h1 : (applyOp st (.addEntry p req now)).medicalHistoryByFighter pid
          = st.medicalHistoryByFighter pid := by
        simp [applyOp, addMedicalEntry, getHistory, hne]
      have h2 : (applyOp st (.addEntry p req now)).suspensionByFighter pid
          = st.suspensionByFighter pid := by
        simp [applyOp, addMedicalEntry]
      exact ⟨hrest.1.trans h1, hrest.2.trans h2⟩
    | setSusp p s =>
      have hne : ¬pid = p := by
        simp only [opWrites, beq_eq_false_iff_ne, ne_eq] at hop
        exact fun h => hop h.symm
      have h1 : (applyOp st (.setSusp p s)).medicalHistoryByFighter pid
          = st.medicalHistoryByFighter pid := by
        simp [applyOp, setSuspension]
      have h2 : (applyOp st (.setSusp p s)).suspensionByFighter pid
          = st.suspensionByFighter pid := by
        simp [applyOp, setSuspension, hne]
      exact ⟨hrest.1.trans h1, hrest.2.trans h2⟩
    | getPass p =>
      exact hrest

/-! ### Claim theorems for the mock medical record store -/

/-- C1: in every reachable state of the seeded store (any clock-valid run
of operations), all entry ids are pairwise distinct across the whole
store, and the id a next `addEntry` would generate differs from every id
already present for any subject, the pre-seeded entries included. -/
theorem addEntry_ids_unique_across_store (t0 : Nat) (ops : List MockOp)
    (hops : clockValid t0 ops = true) :
    StoreIdsUnique (runOps (initialStore t0) ops) ∧
    (∀ (pid : String) (req : AddMedicalEntryRequest) (now : Nat),
      lastClock t0 ops < now →
      ∀ p, ∀ e ∈ (runOps (initialStore t0) ops).medicalHistoryByFighter p,
        e.id ≠ (mkEntry (runOps (initialStore t0) ops) pid req now).id) := by
  obtain ⟨⟨hu, hwf, htime⟩, hle⟩ :=
    storeInv_runOps ops t0 (initialStore t0) (storeInv_initial t0) hops
  refine ⟨hu, ?_⟩
  intro pid req now hnow p e he
  exact fresh_id_ne (hwf p e he) hnow

/-- C3: the history returned by `getMedicalPass` is always sorted by
creation time descending and is a permutation of that subject's stored
entries (none dropped, none invented); and after an `addEntry` call
against a reachable state, the head of the returned history is exactly
the entry just added. -/
theorem getRecord_history_sorted_and_newest_first (t0 : Nat) (ops : List MockOp)
    (pid : String) (req : AddMedicalEntryRequest) (now : Nat)
    (hops : clockValid t0 ops = true) (hnow : lastClock t0 ops < now) :
    (∀ (st : StoreState) (p : String), ∃ d, (getMedicalPass st p).data = some d ∧
        List.Sorted entryAtLeast d.history ∧
        List.Perm d.history (st.medicalHistoryByFighter p)) ∧
    (∃ d, (addMedicalEntry (runOps (initialStore t0) ops) pid req now).1.data = some d ∧
        d.history.head? = some (mkEntry (runOps (initialStore t0) ops) pid req now)) := by
  constructor
  · intro st p
    exact ⟨_, rfl, sortHistoryDesc_sorted _, sortHistoryDesc_perm _⟩
  · obtain ⟨⟨hu, hwf, htime⟩, hle⟩ :=
      storeInv_runOps ops t0 (initialStore t0) (storeInv_initial t0) hops
    have hdata : (addMedicalEntry (runOps (initialStore t0) ops) pid req now).1.data
        = some { profile := (getFighterRecord pid).1
                 pii := (getFighterRecord pid).2.1
                 status := (getFighterRecord pid).2.2
                 history := sortHistoryDesc
                   ((runOps (initialStore t0) ops).medicalHistoryByFighter pid
                     ++ [mkEntry (runOps (initialStore t0) ops) pid req now])
                 suspension := (runOps (initialStore t0) ops).suspensionByFighter pid } := by
      simp [addMedicalEntry, getMedicalPass, getHistory]
    refine ⟨_, hdata, ?_⟩
    apply sortHistoryDesc_head_of_max
    intro x hx
    have hxt := htime pid x hx
    have : (mkEntry (runOps (initialStore t0) ops) pid req now).createdAtMs = now := rfl
    omega

/-- C4: for every prior store state, `setSuspension(id, S)` followed by
`getMedicalPass(id)` yields suspension `S`, and clearing
(`S = none`) yields no suspension; the response returned by
`setSuspension` itself agrees. -/
theorem setSuspension_roundtrip (st : StoreState) (pid : String)
    (s : Option Suspension) :
    ((getMedicalPass (setSuspension st pid s).2 pid).data.map
        MedicalPassResponse.suspension = some s) ∧
    ((setSuspension st pid s).1.data.map MedicalPassResponse.suspension = some s) := by
  constructor <;> simp [setSuspension, getMedicalPass]

/-- C5: for a subject id that is neither seeded nor ever written,
`getMedicalPass` succeeds with an empty history, no suspension and the
deterministic placeholder profile derived from the id's last four
characters; a second read without intervening writes returns the same
data. -/
theorem unknown_subject_placeholder (t0 : Nat) (ops : List MockOp) (pid : String)
    (hpid : pid ≠ "mock-fighter-123")
    (hw : ∀ op ∈ ops, opWrites pid op = false) :
    getMedicalPass (runOps (initialStore t0) ops) pid =
      { success := true
        data := some
          { profile := { MOCK_FIGHTER_PROFILE with
              profileId := pid
              memberCode := ("MTG-" ++ pid.takeRight 4).toUpper
              name := "Demo Fighter " ++ pid.takeRight 4 }
            pii := PLACEHOLDER_PII
            status := MOCK_FIGHTER_DATA.status
            history := []
            suspension := none } } ∧
    getMedicalPass (runOps (initialStore t0) (ops ++ [MockOp.getPass pid])) pid
      = getMedicalPass (runOps (initialStore t0) ops) pid := by
  have hpres := runOps_no_write ops (initialStore t0) pid hw
  have hh : (runOps (initialStore t0) ops).medicalHistoryByFighter pid = [] := by
    rw [hpres.1]
    simp [initialStore, hpid]
  have hs : (runOps (initialStore t0) ops).suspensionByFighter pid = none := by
    rw [hpres.2]
    simp [initialStore, hpid]
  have hpid' : ¬pid = MOCK_FIGHTER_PROFILE.profileId := hpid
  constructor
  · simp [getMedicalPass, getFighterRecord, getHistory, hh, hs, hpid', sortHistoryDesc]
  · rw [runOps_append]
    rfl

/-- C10: the three mock medical operations have no failure branch: for
every store state and every argument they return `success = true`. -/
theorem mock_medical_ops_always_succeed (st : StoreState) (pid : String)
    (req : AddMedicalEntryRequest) (now : Nat) (s : Option Suspension) :
    (getMedicalPass st pid).success = true ∧
    (addMedicalEntry st pid req now).1.success = true ∧
    (setSuspension st pid s).1.success = true :=
  ⟨rfl, rfl, rfl⟩

/-! ### Claim theorems for the token session manager -/

/-- C2: with a complete session, `getBearerToken` returns the stored token
with no refresh exchange while more than 5 minutes of lifetime remain;
with less than 5 minutes remaining it issues exactly one exchange and
returns the fresh token on success; on exchange failure it clears the
whole session and returns null; with a cleared (or never created) session
it returns null immediately with no exchange, so every call after a
failed refresh also returns null. -/
theorem getValidAccessToken_spec (a r : String) (t now now2 : Nat)
    (ex : ApiResponse FirebaseTokenExchangeResponse)
    (tok : FirebaseTokenExchangeResponse)
    (ha : a ≠ "") (hr : r ≠ "") (ht : 0 < t) :
    ((t : Int) - now > 300000 →
      getBearerToken ⟨some a, some r, some t⟩ now ex now2
        = (some a, ⟨some a, some r, some t⟩, 0)) ∧
    ((t : Int) - now < 300000 →
      getBearerToken ⟨some a, some r, some t⟩ now
          { success := true, data := some tok } now2
        = (some tok.access_token,
           ⟨some tok.access_token, some r, some (now2 + tok.expires_in * 1000)⟩, 1)) ∧
    ((t : Int) - now < 300000 →
      ∀ ex2 : ApiResponse FirebaseTokenExchangeResponse,
        ex2.success = false ∨ ex2.data = none →
        getBearerToken ⟨some a, some r, some t⟩ now ex2 now2
          = (none, emptySession, 1)) ∧
    (∀ (n : Nat) (ex3 : ApiResponse FirebaseTokenExchangeResponse) (n2 : Nat),
      getBearerToken emptySession n ex3 n2 = (none, emptySession, 0)) := by
  have ht0 : t ≠ 0 := by omega
  refine ⟨?_, ?_, ?_, ?_⟩
  · intro h
    have hcond : ¬((now : Int) > (t : Int) - 300000) := by omega
    simp [getBearerToken, strTruthy, ha, hr, natFieldTruthy, hcond, ht0]
  · intro h
    have hcond : (now : Int) > (t : Int) - 300000 := by omega
    simp [getBearerToken, strTruthy, ha, hr, natFieldTruthy, hcond, ht0]
  · intro h ex2 hfail
    have hcond : (now : Int) > (t : Int) - 300000 := by omega
    obtain ⟨succ, dat, err⟩ := ex2
    dsimp only at hfail
    rcases hfail with hf | hf
    · subst hf
      simp [getBearerToken, strTruthy, ha, hr, natFieldTruthy, hcond, ht0]
    · subst hf
      cases succ <;>
        simp [getBearerToken, strTruthy, ha, hr, natFieldTruthy, hcond, ht0]
  · intro n ex3 n2
    rfl

/-- C9: a successful refresh inside `getBearerToken` updates only
`accessToken` and `tokenExpiresAt`; the stored `refreshToken` stays
exactly what sign-in saved (the exchange's returned `refresh_token` is
discarded), and sign-in stores the sign-in response's refresh token. -/
theorem refresh_preserves_refreshToken (s : AuthSession) (now now2 : Nat)
    (tok : FirebaseTokenExchangeResponse)
    (h1 : strTruthy s.accessToken = true) (h2 : strTruthy s.refreshToken = true)
    (h3 : (natFieldTruthy s.tokenExpiresAt
        && decide ((now : Int) > (s.tokenExpiresAt.getD 0 : Int) - 300000)) = true) :
    ((getBearerToken s now { success := true, data := some tok } now2).2.1
      = { accessToken := some tok.access_token
          refreshToken := s.refreshToken
          tokenExpiresAt := some (now2 + tok.expires_in * 1000) }) ∧
    (∀ (s0 : AuthSession) (si : FirebaseSignInResponse)
        (tok0 : FirebaseTokenExchangeResponse) (now0 : Nat),
      ((signInWithEmailAndPassword s0 ⟨true, some si, none⟩
          ⟨true, some tok0, none⟩ now0).2).refreshToken = some si.refreshToken) := by
  constructor
  · simp [getBearerToken, h1, h2, h3]
  · intro s0 si tok0 now0
    rfl

/-! ### Claim theorems for the gateway and profile update splitter -/

/-- C6: when the partial update has a truthy basic-info field and a
personal-info field, and the basic-info PUT fails, `updateUserProfile`
returns that failure and the personal-info PUT is never issued. -/
theorem basicInfo_failure_blocks_pii {Profile : Type} (updates : UserProfileUpdates)
    (profileResp : ApiResponse ProfileResponse) (piiResp : ApiResponse PiiResponse)
    (finalResp : ApiResponse Profile)
    (hbasic : basicWanted updates = true)
    (hpii : piiWanted updates = true)
    (hfail : profileResp.success = false) :
    updateUserProfile updates profileResp piiResp finalResp
      = ({ success := false
           error := some (jsOrString profileResp.error "Failed to update profile") },
         { profileRequestSent := some (buildProfileRequest updates)
           piiRequestSent := none }) := by
  simp [updateUserProfile, hbasic, hfail]

/-- C7: with no truthy bearer token, `makeAuthenticatedRequest` fails with
a tagged result and never issues the HTTP request; every outcome yields a
tagged success-with-data or failure-with-error-string value; transport
exceptions are converted to that same failure shape. -/
theorem gateway_tagged_results {α : Type} (bearer : Option String)
    (outcome : FetchOutcome α) :
    (strTruthy bearer = false →
      makeAuthenticatedRequest bearer outcome
        = ({ success := false
             error := some "No authentication token available. Please log in." },
           false)) ∧
    ((makeAuthenticatedRequest bearer outcome).1.success = true ∧
        ((makeAuthenticatedRequest bearer outcome).1.data).isSome = true ∧
        (makeAuthenticatedRequest bearer outcome).1.error = none
      ∨ (makeAuthenticatedRequest bearer outcome).1.success = false ∧
        (makeAuthenticatedRequest bearer outcome).1.data = none ∧
        ((makeAuthenticatedRequest bearer outcome).1.error).isSome = true) ∧
    (∀ m : Option String, strTruthy bearer = true →
      makeAuthenticatedRequest bearer (FetchOutcome.throwEx m : FetchOutcome α)
        = ({ success := false
             error := some (jsOrString m "Network request failed") }, true)) := by
  refine ⟨?_, ?_, ?_⟩
  · intro h
    simp [makeAuthenticatedRequest, h]
  · by_cases hb : strTruthy bearer = true
    · cases outcome with
      | throwEx m =>
        right
        simp [makeAuthenticatedRequest, hb]
      | resp ok status statusText body =>
        cases ok with
        | true =>
          cases body with
          | throwEx m =>
            right
            simp [makeAuthenticatedRequest, hb]
          | val b =>
            left
            simp [makeAuthenticatedRequest, hb]
        | false =>
          cases body with
          | throwEx m =>
            right
            simp [makeAuthenticatedRequest, hb]
          | val b =>
            right
            simp [makeAuthenticatedRequest, hb]
    · rw [Bool.not_eq_true] at hb
      right
      simp [makeAuthenticatedRequest, hb]
  · intro m h
    simp [makeAuthenticatedRequest, h]

/-- C8: an omitted (`undefined`) address or contact list yields no
corresponding field in the personal-info request body, while an explicit
empty list yields an explicit empty array there; and whenever the
personal-info block runs, the body it sends is exactly this request. -/
theorem empty_list_vs_omitted (updates : UserProfileUpdates) :
    (formatAddressesForRequest none = none ∧
     formatContactsForRequest none = none ∧
     formatAddressesForRequest (some []) = some [] ∧
     formatContactsForRequest (some []) = some []) ∧
    (updates.addresses = none → (buildPiiRequest updates).addresses = none) ∧
    (updates.addresses = some [] → (buildPiiRequest updates).addresses = some []) ∧
    (updates.emergencyContacts = none →
      (buildPiiRequest updates).emergencyContacts = none) ∧
    (updates.emergencyContacts = some [] →
      (buildPiiRequest updates).emergencyContacts = some []) ∧
    (piiWanted updates = true →
      ∀ (piiResp : ApiResponse PiiResponse) (finalResp : ApiResponse Unit)
        (profSent : Option UpdateProfileRequest),
        ((updatePiiStep updates piiResp finalResp profSent).2).piiRequestSent
          = some (buildPiiRequest updates)) := by
  refine ⟨⟨rfl, rfl, rfl, rfl⟩, ?_, ?_, ?_, ?_, ?_⟩
  · intro h
    simp [buildPiiRequest, h, formatAddressesForRequest]
  · intro h
    simp [buildPiiRequest, h, formatAddressesForRequest]
  · intro h
    simp [buildPiiRequest, h, formatContactsForRequest]
  · intro h
    simp [buildPiiRequest, h, formatContactsForRequest]
  · intro h piiResp finalResp profSent
    by_cases hps : piiResp.success = true <;>
      simp [updatePiiStep, h, hps]

/-! ### Witnesses -/

theorem addEntry_ids_unique_across_store_witness :
    clockValid 1000 [MockOp.addEntry "p" { entryType := "note", notes := "n" } 2000,
        MockOp.addEntry "q" { entryType := "note", notes := "n" } 3000] = true ∧
    StoreIdsUnique (runOps (initialStore 1000)
      [MockOp.addEntry "p" { entryType := "note", notes := "n" } 2000,
       MockOp.addEntry "q" { entryType := "note", notes := "n" } 3000]) :=
  ⟨by decide, (addEntry_ids_unique_across_store 1000
      [MockOp.addEntry "p" { entryType := "note", notes := "n" } 2000,
       MockOp.addEntry "q" { entryType := "note", notes := "n" } 3000] (by decide)).1⟩

theorem getValidAccessToken_spec_witness :
    ("A" : String) ≠ "" ∧ ("R" : String) ≠ "" ∧ (0 : Nat) < 1000000 ∧
    getBearerToken ⟨some "A", some "R", some 1000000⟩ 0 ⟨true, none, none⟩ 5
      = (some "A", ⟨some "A", some "R", some 1000000⟩, 0) :=
  ⟨by decide, by decide, by decide,
   (getValidAccessToken_spec "A" "R" 1000000 0 5 ⟨true, none, none⟩
      ⟨"NA", 3600, "NR", "ID"⟩ (by decide) (by decide) (by decide)).1 (by decide)⟩

theorem getRecord_history_sorted_and_newest_first_witness :
    clockValid 1000 ([] : List MockOp) = true ∧
    lastClock 1000 ([] : List MockOp) < 2000 ∧
    (∃ d, (addMedicalEntry (runOps (initialStore 1000) []) "p"
        { entryType := "note", notes := "hi" } 2000).1.data = some d ∧
      d.history.head? = some (mkEntry (runOps (initialStore 1000) []) "p"
        { entryType := "note", notes := "hi" } 2000)) :=
  ⟨by decide, by decide,
   (getRecord_history_sorted_and_newest_first 1000 [] "p"
      { entryType := "note", notes := "hi" } 2000 (by decide) (by decide)).2⟩

theorem unknown_subject_placeholder_witness :
    ("demo-abcd" : String) ≠ "mock-fighter-123" ∧
    (getMedicalPass (runOps (initialStore 1000) []) "demo-abcd" =
      { success := true
        data := some
          { profile := { MOCK_FIGHTER_PROFILE with
              profileId := "demo-abcd"
              memberCode := ("MTG-" ++ ("demo-abcd" : String).takeRight 4).toUpper
              name := "Demo Fighter " ++ ("demo-abcd" : String).takeRight 4 }
            pii := PLACEHOLDER_PII
            status := MOCK_FIGHTER_DATA.status
            history := []
            suspension := none } } ∧
    getMedicalPass (runOps (initialStore 1000)
        ([] ++ [MockOp.getPass "demo-abcd"])) "demo-abcd"
      = getMedicalPass (runOps (initialStore 1000) []) "demo-abcd") :=
  ⟨by decide,
   unknown_subject_placeholder 1000 [] "demo-abcd" (by decide)
     (fun op h => absurd h (List.not_mem_nil op))⟩

theorem basicInfo_failure_blocks_pii_witness :
    basicWanted { name := some "N", addresses := some [] } = true ∧
    piiWanted { name := some "N", addresses := some [] } = true ∧
    ({ success := false, error := some "boom" } : ApiResponse ProfileResponse).success
      = false ∧
    updateUserProfile { name := some "N", addresses := some [] }
        { success := false, error := some "boom" } { success := true }
        ({ success := true } : ApiResponse Unit)
      = ({ success := false
           error := some (jsOrString (({ success := false, error := some "boom" }
              : ApiResponse ProfileResponse)).error "Failed to update profile") },
         { profileRequestSent :=
             some (buildProfileRequest { name := some "N", addresses := some [] })
           piiRequestSent := none }) :=
  ⟨by decide, by decide, rfl,
   basicInfo_failure_blocks_pii { name := some "N", addresses := some [] }
     { success := false, error := some "boom" } { success := true }
     ({ success := true } : ApiResponse Unit) (by decide) (by decide) rfl⟩

theorem gateway_tagged_results_witness :
    strTruthy (some "B") = true ∧
    makeAuthenticatedRequest (some "B")
        (FetchOutcome.throwEx (some "x") : FetchOutcome Unit)
      = ({ success := false
           error := some (jsOrString (some "x") "Network request failed") }, true) :=
  ⟨by decide,
   (gateway_tagged_results (some "B")
      (FetchOutcome.throwEx (some "x") : FetchOutcome Unit)).2.2 (some "x") (by decide)⟩

theorem empty_list_vs_omitted_witness :
    ({ addresses := some [] } : UserProfileUpdates).addresses = some [] ∧
    (buildPiiRequest { addresses := some [] }).addresses = some [] ∧
    piiWanted { addresses := some [] } = true ∧
    ((updatePiiStep { addresses := some [] }
        ({ success := true } : ApiResponse PiiResponse)
        ({ success := true } : ApiResponse Unit) none).2).piiRequestSent
      = some (buildPiiRequest { addresses := some [] }) :=
  ⟨rfl,
   (empty_list_vs_omitted { addresses := some [] }).2.2.1 rfl,
   by decide,
   (empty_list_vs_omitted { addresses := some [] }).2.2.2.2.2 (by decide)
     { success := true } { success := true } none⟩

theorem refresh_preserves_refreshToken_witness :
    strTruthy (some "A") = true ∧ strTruthy (some "R") = true ∧
    (natFieldTruthy (some 1000)
      && decide ((5000000 : Int) > (1000 : Int) - 300000)) = true ∧
    (getBearerToken ⟨some "A", some "R", some 1000⟩ 5000000
        { success := true, data := some ⟨"NA", 3600, "NR", "ID"⟩ } 5000010).2.1
      = { accessToken := some "NA", refreshToken := some "R",
          tokenExpiresAt := some (5000010 + 3600 * 1000) } :=
  ⟨by decide, by decide, by decide,
   (refresh_preserves_refreshToken ⟨some "A", some "R", some 1000⟩ 5000000 5000010
      ⟨"NA", 3600, "NR", "ID"⟩ (by decide) (by decide) (by decide)).1⟩

end MTGB
